import Mathlib

/-!
Verification development for the `mastra-101` shopping-assistant repository.

The pure business logic of the repository is shallowly embedded here:

* `src/src/mastra/tools/shopping-tools.ts` — the product catalog
  (`sampleProducts`) and the execute functions of the four tools
  (`searchProductsTool`, `getProductDetailTool`, `getCategoriesList`,
  `checkStockTool`).
* `src/src/mastra/workflows/shopping-workflow.ts` — the execute functions of
  the workflow steps (`analyzeUserRequest`, `searchAndFilter`,
  `checkStockStep`).
* `src/src/mastra/scorers/shopping-scorer.ts` — the `generateScore`
  functions of the three rubric scorers.

Modelling conventions:

* JS numbers are modelled by `Int` (catalog prices and stocks are integers)
  and, in the scorers, by `ℚ` (exact arithmetic standing in for JS number
  arithmetic on the small constant weights).
* JS strings are Lean `String`s; `s.toLowerCase()` maps `Char.toLower`
  over the characters (both lowercase ASCII letters and leave the
  catalog's Japanese text unchanged); `s.includes(t)` is the
  contiguous-sublist test on the character lists.
* Optional JS arguments are `Option` values.  JS truthiness is modelled
  where the source relies on it: `q || 1` maps `none` and `some 0` to `1`
  (`0` is falsy); `if (context.keyword)` skips the filter for `none` and
  for the empty string.
* `Array.prototype.sort` with a numeric comparator is a stable sort, so
  over the step's total preorders its output is that of any stable sort;
  it is modelled by `List.insertionSort` (stable) with the corresponding
  `≤` relation.
* `JSON.parse` is a platform builtin, not repository code; the
  `analyze-user-request` step is parametrized by an abstract parser
  `String → Option ParsedPrefs` whose `none` result models a thrown parse
  error.
-/

/-- A catalog record (`productSchema` in shopping-tools.ts). -/
structure Product where
  id : String
  name : String
  description : String
  price : Int
  category : String
  stock : Int
deriving Repr, DecidableEq

/-- The eight-record literal catalog `sampleProducts` of shopping-tools.ts. -/
def sampleProducts : List Product :=
  [ { id := "1", name := "ワイヤレスイヤホン Pro",
      description := "高音質ノイズキャンセリング搭載、最大30時間再生可能なプレミアムイヤホン",
      price := 15800, category := "オーディオ", stock := 25 },
    { id := "2", name := "スマートウォッチ X1",
      description := "心拍数モニター、GPS機能搭載のフィットネストラッカー",
      price := 24900, category := "ウェアラブル", stock := 18 },
    { id := "3", name := "ノートパソコンスタンド",
      description := "人間工学に基づいた調整可能なアルミニウム製スタンド",
      price := 4980, category := "アクセサリー", stock := 42 },
    { id := "4", name := "4Kウェブカメラ",
      description := "オートフォーカス、広角レンズ搭載のプロフェッショナルウェブカメラ",
      price := 8900, category := "PC周辺機器", stock := 15 },
    { id := "5", name := "メカニカルキーボード RGB",
      description := "タクタイルスイッチ、カスタマイズ可能なRGBバックライト",
      price := 12800, category := "PC周辺機器", stock := 30 },
    { id := "6", name := "ポータブル充電器 20000mAh",
      description := "急速充電対応、2ポート搭載の大容量モバイルバッテリー",
      price := 3980, category := "アクセサリー", stock := 50 },
    { id := "7", name := "ゲーミングマウス Pro",
      description := "16000DPI、プログラマブルボタン搭載のゲーミングマウス",
      price := 6800, category := "PC周辺機器", stock := 22 },
    { id := "8", name := "Bluetoothスピーカー",
      description := "360度サウンド、防水IPX7対応のポータブルスピーカー",
      price := 5900, category := "オーディオ", stock := 35 } ]

/-- Contiguous-sublist test on character lists: `subList n h` is true iff
`n` occurs contiguously inside `h` (the semantics of JS `h.includes(n)`). -/
def subList (needle : List Char) : List Char → Bool
  | [] => needle.isEmpty
  | c :: rest => needle.isPrefixOf (c :: rest) || subList needle rest

/-- `s.toLowerCase()` as a character list (per-character ASCII lowercase,
the identity on the catalog's Japanese text). -/
def lowerList (s : String) : List Char := s.toList.map Char.toLower

/-- `hay.toLowerCase().includes(needle.toLowerCase())` from the filters. -/
def containsSub (hay needle : String) : Bool :=
  subList (lowerList needle) (lowerList hay)

/-- Input of `searchProductsTool` (all four arguments optional). -/
structure SearchArgs where
  keyword : Option String
  category : Option String
  maxPrice : Option Int
  minPrice : Option Int
deriving Repr, DecidableEq

/-- Output of `searchProductsTool`. -/
structure SearchResult where
  products : List Product
  totalCount : Nat
deriving Repr, DecidableEq

/-- The keyword test of `searchProductsTool` (name, description or
category contains the lowercased keyword). -/
def toolKeywordPred (k : String) (p : Product) : Bool :=
  containsSub p.name k || containsSub p.description k || containsSub p.category k

/-- `filtered` after the keyword filter of `searchProductsTool`
(`if (context.keyword)` is false for `none` and for the empty string). -/
def toolAfterKeyword (a : SearchArgs) : List Product :=
  match a.keyword with
  | some k => if k = "" then sampleProducts else sampleProducts.filter (toolKeywordPred k)
  | none => sampleProducts

/-- `filtered` after the category filter of `searchProductsTool`. -/
def toolAfterCategory (a : SearchArgs) : List Product :=
  match a.category with
  | some c =>
      if c = "" then toolAfterKeyword a
      else (toolAfterKeyword a).filter (fun p => containsSub p.category c)
  | none => toolAfterKeyword a

/-- `filtered` after the min-price filter of `searchProductsTool`
(`context.minPrice !== undefined` is a plain `Option` test). -/
def toolAfterMinPrice (a : SearchArgs) : List Product :=
  match a.minPrice with
  | some m => (toolAfterCategory a).filter (fun p => decide (m ≤ p.price))
  | none => toolAfterCategory a

/-- `filtered` after the max-price filter of `searchProductsTool`. -/
def toolAfterMaxPrice (a : SearchArgs) : List Product :=
  match a.maxPrice with
  | some m => (toolAfterMinPrice a).filter (fun p => decide (p.price ≤ m))
  | none => toolAfterMinPrice a

/-- The execute function of `searchProductsTool`. -/
def searchProductsTool (a : SearchArgs) : SearchResult :=
  { products := toolAfterMaxPrice a, totalCount := (toolAfterMaxPrice a).length }

/-- Output of `getProductDetailTool`. -/
structure DetailResult where
  product : Option Product
  found : Bool
deriving Repr, DecidableEq

/-- The execute function of `getProductDetailTool`. -/
def getProductDetailTool (productId : String) : DetailResult :=
  let product := sampleProducts.find? (fun p => p.id == productId)
  { product := product, found := product.isSome }

/-- One `categoryMap.set` update of `getCategoriesList`: a JS `Map` keeps
first-insertion order, so an existing key is bumped in place and a new key
is appended. -/
def bumpCategory : List (String × Nat) → String → List (String × Nat)
  | [], c => [(c, 1)]
  | (name, n) :: rest, c =>
      if name = c then (name, n + 1) :: rest else (name, n) :: bumpCategory rest c

/-- The execute function of `getCategoriesList` (category name with its
product count, in first-occurrence order). -/
def getCategoriesList : List (String × Nat) :=
  sampleProducts.foldl (fun acc p => bumpCategory acc p.category) []

/-- JS `quantity || 1`: `undefined` and the falsy `0` both give `1`. -/
def jsQty : Option Int → Int
  | none => 1
  | some n => if n = 0 then 1 else n

/-- Output of `checkStockTool`. -/
structure StockResult where
  productId : String
  productName : String
  currentStock : Int
  requestedQuantity : Int
  isAvailable : Bool
  message : String
deriving Repr, DecidableEq

/-- The execute function of `checkStockTool`. -/
def checkStockTool (productId : String) (quantity : Option Int) : StockResult :=
  let requestedQuantity := jsQty quantity
  match sampleProducts.find? (fun p => p.id == productId) with
  | none =>
      { productId := productId, productName := "不明", currentStock := 0,
        requestedQuantity := requestedQuantity, isAvailable := false,
        message := "商品が見つかりません" }
  | some product =>
      let isAvailable := decide (requestedQuantity ≤ product.stock)
      { productId := product.id, productName := product.name,
        currentStock := product.stock, requestedQuantity := requestedQuantity,
        isAvailable := isAvailable,
        message :=
          if isAvailable then "在庫あり（" ++ toString product.stock ++ "個）"
          else "在庫不足（残り" ++ toString product.stock ++ "個、" ++
            toString (requestedQuantity - product.stock) ++ "個不足）" }

/-- The four priority factors of `userPreferencesSchema`. -/
inductive Priority where
  | price
  | quality
  | popularity
  | stock
deriving Repr, DecidableEq

/-- `priceRange` of `userPreferencesSchema` (both bounds optional). -/
structure PriceRange where
  min : Option Int
  max : Option Int
deriving Repr, DecidableEq

/-- `userPreferencesSchema`: the output of the analyze step and the input
of the search-and-filter step. -/
structure UserPreferences where
  priceRange : PriceRange
  preferredCategories : List String
  keywords : List String
  priorityFactors : List Priority
deriving Repr, DecidableEq

/-- The fields the analyze step reads out of a successfully parsed model
response (`parsed.priceRange?.min` and friends; a missing field is
`none`). -/
structure ParsedPrefs where
  priceMin : Option Int
  priceMax : Option Int
  preferredCategories : Option (List String)
  keywords : Option (List String)
  priorityFactors : Option (List Priority)
deriving Repr, DecidableEq

/-- The greedy regex `/\x7b[\s\S]*\x7d/` of the analyze step: it matches
iff the first `{` of the text sits before the last `}`, and the match
runs from that first `{` to that last `}`. -/
def extractJsonMatch (text : String) : Option String :=
  let cs := text.toList
  match cs.findIdx? (fun c => c == '{') with
  | none => none
  | some i =>
      match cs.reverse.findIdx? (fun c => c == '}') with
      | none => none
      | some k =>
          let j := cs.length - 1 - k
          if i < j then some (String.mk ((cs.drop i).take (j - i + 1))) else none

/-- The default preferences returned by the `catch` branch of the analyze
step. -/
def defaultPreferences (userMessage : String) : UserPreferences :=
  { priceRange := { min := none, max := none },
    preferredCategories := [],
    keywords := [userMessage],
    priorityFactors := [Priority.quality] }

/-- The execute function of the `analyze-user-request` step, after the
model call: `responseText` is the model's text, and `parseJson` stands for
the platform's `JSON.parse` (returning `none` models a thrown error, which
the `catch` turns into the defaults, as does a regex miss). -/
def analyzeUserRequest (parseJson : String → Option ParsedPrefs)
    (userMessage responseText : String) : UserPreferences :=
  match extractJsonMatch responseText with
  | none => defaultPreferences userMessage
  | some matched =>
      match parseJson matched with
      | none => defaultPreferences userMessage
      | some parsed =>
          { priceRange := { min := parsed.priceMin, max := parsed.priceMax },
            preferredCategories := parsed.preferredCategories.getD [],
            keywords := parsed.keywords.getD [],
            priorityFactors := parsed.priorityFactors.getD [Priority.quality] }

/-- The category test of the search-and-filter step: some preferred
category is a (lowercased) substring of the product's category. -/
def wfCategoryPred (cats : List String) (p : Product) : Bool :=
  cats.any (fun cat => containsSub p.category cat)

/-- The keyword test of the search-and-filter step: some keyword is a
(lowercased) substring of the product's name or description. -/
def wfKeywordPred (kws : List String) (p : Product) : Bool :=
  kws.any (fun kw => containsSub p.name kw || containsSub p.description kw)

/-- `products` after the category filter of the search-and-filter step. -/
def wfAfterCategory (prefs : UserPreferences) : List Product :=
  if 0 < prefs.preferredCategories.length then
    sampleProducts.filter (wfCategoryPred prefs.preferredCategories)
  else sampleProducts

/-- `products` after the min-price filter of the search-and-filter step. -/
def wfAfterMinPrice (prefs : UserPreferences) : List Product :=
  match prefs.priceRange.min with
  | some m => (wfAfterCategory prefs).filter (fun p => decide (m ≤ p.price))
  | none => wfAfterCategory prefs

/-- `products` after the max-price filter of the search-and-filter step. -/
def wfAfterMaxPrice (prefs : UserPreferences) : List Product :=
  match prefs.priceRange.max with
  | some m => (wfAfterMinPrice prefs).filter (fun p => decide (p.price ≤ m))
  | none => wfAfterMinPrice prefs

/-- `products` after the keyword stage of the search-and-filter step: when
keywords are supplied, the keyword-filtered list is used only if it is
non-empty, otherwise the previous list is kept unchanged. -/
def wfAfterKeyword (prefs : UserPreferences) : List Product :=
  let products := wfAfterMaxPrice prefs
  if 0 < prefs.keywords.length then
    let keywordFiltered := products.filter (wfKeywordPred prefs.keywords)
    if 0 < keywordFiltered.length then keywordFiltered else products
  else products

/-- The sort of the search-and-filter step: `price` sorts by ascending
price, `stock` by descending stock, and `popularity`, `quality` (the
`default` branch) by descending price.  The JS `Array.prototype.sort` is
stable, so its output over these total preorders is that of any stable
sort; `List.insertionSort` is stable. -/
def sortByPriority (f : Priority) (l : List Product) : List Product :=
  match f with
  | Priority.price => List.insertionSort (fun a b => a.price ≤ b.price) l
  | Priority.stock => List.insertionSort (fun a b => b.stock ≤ a.stock) l
  | Priority.popularity => List.insertionSort (fun a b => b.price ≤ a.price) l
  | Priority.quality => List.insertionSort (fun a b => b.price ≤ a.price) l

/-- The fully filtered and sorted product list of the search-and-filter
step, before the final `slice(0, 5)` (`priorityFactors[0] || "quality"` is
`headD` since the four factor strings are all truthy). -/
def searchAndFilterList (prefs : UserPreferences) : List Product :=
  sortByPriority (prefs.priorityFactors.headD Priority.quality) (wfAfterKeyword prefs)

/-- Output of the search-and-filter step. -/
structure FilterOutput where
  filteredProducts : List Product
  totalMatched : Nat
deriving Repr, DecidableEq

/-- The execute function of the `search-and-filter` step. -/
def searchAndFilter (prefs : UserPreferences) : FilterOutput :=
  { filteredProducts := (searchAndFilterList prefs).take 5,
    totalMatched := (searchAndFilterList prefs).length }

/-- Output of the `check-stock` workflow step. -/
structure StockStepResult where
  productId : String
  productName : String
  currentStock : Int
  isAvailable : Bool
  alternatives : List Product
deriving Repr, DecidableEq

/-- The execute function of the `check-stock` workflow step. -/
def checkStockStep (productId : String) (quantity : Option Int) : StockStepResult :=
  let requestedQty := jsQty quantity
  match sampleProducts.find? (fun p => p.id == productId) with
  | none =>
      { productId := productId, productName := "不明", currentStock := 0,
        isAvailable := false, alternatives := [] }
  | some product =>
      let isAvailable := decide (requestedQty ≤ product.stock)
      let alternatives :=
        if isAvailable then []
        else
          (sampleProducts.filter (fun p =>
            p.id != product.id && p.category == product.category &&
              decide (requestedQty ≤ p.stock))).take 3
      { productId := product.id, productName := product.name,
        currentStock := product.stock, isAvailable := isAvailable,
        alternatives := alternatives }

/-- `Math.max(0, Math.min(1, score))` from the scorers. -/
def clamp01 (x : ℚ) : ℚ := max 0 (min 1 x)

/-- The analyze-step result read by `priceAccuracyScorer.generateScore`
(a missing `confidence` is `none`; a missing boolean is falsy, i.e.
`false`). -/
structure PriceAnalysis where
  hasPriceInfo : Bool
  isAccurate : Bool
  isClear : Bool
  confidence : Option ℚ
deriving Repr, DecidableEq

/-- The `generateScore` function of `priceAccuracyScorer`. -/
def priceAccuracyScore (r : PriceAnalysis) : ℚ :=
  if !r.hasPriceInfo then 1
  else
    let score : ℚ := 0
    let score := if r.isAccurate then score + 0.5 else score
    let score := if r.isClear then score + 0.3 else score
    let score := score + 0.2 * r.confidence.getD 1
    clamp01 score

/-- The analyze-step result read by
`customerServiceQualityScorer.generateScore`. -/
structure ServiceAnalysis where
  politeness : Option ℚ
  helpfulness : Option ℚ
  relevance : Option ℚ
  proactiveness : Option ℚ
  clarity : Option ℚ
deriving Repr, DecidableEq

/-- The `generateScore` function of `customerServiceQualityScorer`
(weights 0.15 / 0.3 / 0.3 / 0.1 / 0.15, each sub-score defaulting to
0.5). -/
def customerServiceQualityScore (r : ServiceAnalysis) : ℚ :=
  clamp01 (r.politeness.getD 0.5 * 0.15 + r.helpfulness.getD 0.5 * 0.3 +
    r.relevance.getD 0.5 * 0.3 + r.proactiveness.getD 0.5 * 0.1 +
    r.clarity.getD 0.5 * 0.15)

/-- The analyze-step result read by
`stockInfoAccuracyScorer.generateScore`. -/
structure StockAnalysis where
  mentionsStock : Bool
  isAccurate : Bool
  providesAlternatives : Bool
  confidence : Option ℚ
deriving Repr, DecidableEq

/-- The `generateScore` function of `stockInfoAccuracyScorer`. -/
def stockInfoAccuracyScore (r : StockAnalysis) : ℚ :=
  if !r.mentionsStock then 1
  else
    let score : ℚ := 0
    let score := if r.isAccurate then score + 0.6 else score
    let score := if r.providesAlternatives then score + 0.2 else score
    let score := score + 0.2 * r.confidence.getD 1
    clamp01 score

/-- One call against the catalog: the four tools and the two
catalog-touching workflow steps. -/
inductive ToolCall where
  | searchProducts (a : SearchArgs)
  | getProductDetail (productId : String)
  | getCategories
  | checkStock (productId : String) (quantity : Option Int)
  | searchAndFilterStep (prefs : UserPreferences)
  | checkStockWfStep (productId : String) (quantity : Option Int)
deriving Repr, DecidableEq

/-- The contents of the `sampleProducts` array after one call.  Every arm
returns the catalog unchanged because that is what the source does: the
tools and the check-stock step only read the array (`find`, `filter`
allocate fresh arrays), and the search-and-filter step's in-place `sort`
is applied to the spread copy `[...sampleProducts]` (or to a fresh
`filter` result derived from it), never to the catalog array itself. -/
def catalogAfter (catalog : List Product) : ToolCall → List Product
  | ToolCall.searchProducts _ => catalog
  | ToolCall.getProductDetail _ => catalog
  | ToolCall.getCategories => catalog
  | ToolCall.checkStock _ _ => catalog
  | ToolCall.searchAndFilterStep _ => catalog
  | ToolCall.checkStockWfStep _ _ => catalog

/-- The catalog contents after a whole sequence of calls. -/
def catalogAfterCalls (calls : List ToolCall) : List Product :=
  calls.foldl catalogAfter sampleProducts

example : (searchProductsTool ⟨none, some "オーディオ", none, none⟩).totalCount = 2 := by decide

example : (checkStockTool "4" (some 20)).isAvailable = false := by decide

example : (getProductDetailTool "9").found = false := by decide

example :
    (checkStockStep "4" (some 20)).alternatives =
      [sampleProducts.get ⟨4, by decide⟩, sampleProducts.get ⟨6, by decide⟩] := by decide

example :
    (searchAndFilter (defaultPreferences "1万円以下")).totalMatched = 8 := by decide

/-! ## Helper lemmas -/

/-- Every catalog record has stock at least 15. -/
lemma sampleProducts_stock_ge (p : Product) (hp : p ∈ sampleProducts) :
    (15 : Int) ≤ p.stock := by
  revert p
  decide

/-- On stocks of at least 1, the JS-truthy default `q || 1` and the
spec's plain default agree about availability. -/
lemma jsQty_le_iff_getD_le (q : Option Int) (s : Int) (hs : (1 : Int) ≤ s) :
    decide (jsQty q ≤ s) = decide (q.getD 1 ≤ s) := by
  cases q with
  | none => rfl
  | some n =>
      by_cases hn : n = 0
      · subst hn
        simp [jsQty, hs, le_trans (by norm_num : (0:Int) ≤ 1) hs]
      · simp [jsQty, hn]

/-- Sorting by any priority factor preserves membership. -/
lemma mem_sortByPriority {f : Priority} {l : List Product} {p : Product} :
    p ∈ sortByPriority f l ↔ p ∈ l := by
  cases f <;> simp [sortByPriority, List.mem_insertionSort]

/-- Sorting by any priority factor preserves length. -/
lemma length_sortByPriority (f : Priority) (l : List Product) :
    (sortByPriority f l).length = l.length := by
  cases f <;> simp [sortByPriority, List.length_insertionSort]

lemma mem_wfAfterKeyword {prefs : UserPreferences} {p : Product}
    (h : p ∈ wfAfterKeyword prefs) : p ∈ wfAfterMaxPrice prefs := by
  simp only [wfAfterKeyword] at h
  split at h
  · split at h
    · exact List.mem_of_mem_filter h
    · exact h
  · exact h

lemma mem_wfAfterMaxPrice {prefs : UserPreferences} {p : Product}
    (h : p ∈ wfAfterMaxPrice prefs) : p ∈ wfAfterMinPrice prefs := by
  unfold wfAfterMaxPrice at h
  split at h
  · exact List.mem_of_mem_filter h
  · exact h

lemma mem_wfAfterMinPrice {prefs : UserPreferences} {p : Product}
    (h : p ∈ wfAfterMinPrice prefs) : p ∈ wfAfterCategory prefs := by
  unfold wfAfterMinPrice at h
  split at h
  · exact List.mem_of_mem_filter h
  · exact h

lemma mem_of_mem_filteredProducts {prefs : UserPreferences} {p : Product}
    (h : p ∈ (searchAndFilter prefs).filteredProducts) :
    p ∈ wfAfterKeyword prefs := by
  have h1 : p ∈ searchAndFilterList prefs :=
    List.take_subset 5 (searchAndFilterList prefs) h
  exact mem_sortByPriority.mp h1

lemma mem_toolAfterMaxPrice {a : SearchArgs} {p : Product}
    (h : p ∈ toolAfterMaxPrice a) : p ∈ toolAfterMinPrice a := by
  unfold toolAfterMaxPrice at h
  split at h
  · exact List.mem_of_mem_filter h
  · exact h

lemma mem_toolAfterMinPrice {a : SearchArgs} {p : Product}
    (h : p ∈ toolAfterMinPrice a) : p ∈ toolAfterCategory a := by
  unfold toolAfterMinPrice at h
  split at h
  · exact List.mem_of_mem_filter h
  · exact h

/-- The empty needle is a sublist of everything (JS `includes("")`). -/
lemma subList_nil (l : List Char) : subList [] l = true := by
  cases l <;> rfl

/-- `containsSub hay "" = true` for every haystack. -/
lemma containsSub_empty (hay : String) : containsSub hay "" = true := by
  unfold containsSub lowerList
  simp only [String.toList]
  exact subList_nil _

/-! ## C1 -/

/-- C1: for every stock-check call (tool or workflow step) whose productId
matches a catalog product, `isAvailable` equals
`stock ≥ requestedQuantity` — the requested quantity defaulting to 1 when
omitted — and `currentStock` equals the product's stock. -/
theorem checkStock_isAvailable_correct (productId : String) (quantity : Option Int)
    (p : Product) (hfind : sampleProducts.find? (fun q => q.id == productId) = some p) :
    ((checkStockTool productId quantity).isAvailable
        = decide (quantity.getD 1 ≤ p.stock) ∧
      (checkStockTool productId quantity).currentStock = p.stock) ∧
    ((checkStockStep productId quantity).isAvailable
        = decide (quantity.getD 1 ≤ p.stock) ∧
      (checkStockStep productId quantity).currentStock = p.stock) := by
  have hmem : p ∈ sampleProducts := List.mem_of_find?_eq_some hfind
  have hs : (1 : Int) ≤ p.stock :=
    le_trans (by norm_num) (sampleProducts_stock_ge p hmem)
  have hq := jsQty_le_iff_getD_le quantity p.stock hs
  refine ⟨⟨?_, ?_⟩, ⟨?_, ?_⟩⟩ <;>
    simp [checkStockTool, checkStockStep, hfind, hq]

/-- C1 witness: product "2" (stock 18), quantity omitted. -/
theorem checkStock_isAvailable_correct_witness :
    ((checkStockTool "2" none).isAvailable
        = decide ((Option.none (α := Int)).getD 1 ≤ (sampleProducts.get ⟨1, by decide⟩).stock) ∧
      (checkStockTool "2" none).currentStock = (sampleProducts.get ⟨1, by decide⟩).stock) ∧
    ((checkStockStep "2" none).isAvailable
        = decide ((Option.none (α := Int)).getD 1 ≤ (sampleProducts.get ⟨1, by decide⟩).stock) ∧
      (checkStockStep "2" none).currentStock = (sampleProducts.get ⟨1, by decide⟩).stock) :=
  checkStock_isAvailable_correct "2" none (sampleProducts.get ⟨1, by decide⟩) (by decide)

/-! ## C5 -/

/-- C5: a productId matching no catalog product yields the "not found"
sentinels: `getProductDetailTool` returns `product = none` and
`found = false`; `checkStockTool` and the check-stock step return
productName "不明", currentStock 0 and isAvailable false, the step with an
empty alternatives list. -/
theorem notFound_sentinels (productId : String)
    (hfind : sampleProducts.find? (fun q => q.id == productId) = none) :
    ((getProductDetailTool productId).product = none ∧
      (getProductDetailTool productId).found = false) ∧
    (∀ quantity : Option Int,
      (checkStockTool productId quantity).productName = "不明" ∧
      (checkStockTool productId quantity).currentStock = 0 ∧
      (checkStockTool productId quantity).isAvailable = false) ∧
    (∀ quantity : Option Int,
      (checkStockStep productId quantity).productName = "不明" ∧
      (checkStockStep productId quantity).currentStock = 0 ∧
      (checkStockStep productId quantity).isAvailable = false ∧
      (checkStockStep productId quantity).alternatives = []) := by
  refine ⟨⟨?_, ?_⟩, fun quantity => ⟨?_, ?_, ?_⟩, fun quantity => ⟨?_, ?_, ?_, ?_⟩⟩ <;>
    simp [getProductDetailTool, checkStockTool, checkStockStep, hfind]

/-- C5 witness: productId "999" matches nothing. -/
theorem notFound_sentinels_witness :
    ((getProductDetailTool "999").product = none ∧
      (getProductDetailTool "999").found = false) ∧
    ((checkStockTool "999" (some 2)).productName = "不明" ∧
      (checkStockTool "999" (some 2)).currentStock = 0 ∧
      (checkStockTool "999" (some 2)).isAvailable = false) ∧
    ((checkStockStep "999" (some 2)).productName = "不明" ∧
      (checkStockStep "999" (some 2)).currentStock = 0 ∧
      (checkStockStep "999" (some 2)).isAvailable = false ∧
      (checkStockStep "999" (some 2)).alternatives = []) := by
  have h := notFound_sentinels "999" (by decide)
  exact ⟨h.1, h.2.1 (some 2), h.2.2 (some 2)⟩

/-! ## C10 -/

/-- C10: for an existing product, the check-stock step's alternatives list
is non-empty only when the product is unavailable, has at most 3 entries,
and each entry shares the requested product's category, has a different
id, and has stock at least the requested quantity. -/
theorem checkStockStep_alternatives_correct (productId : String)
    (quantity : Option Int) (p : Product)
    (hfind : sampleProducts.find? (fun q => q.id == productId) = some p) :
    ((checkStockStep productId quantity).alternatives ≠ [] →
      (checkStockStep productId quantity).isAvailable = false) ∧
    (checkStockStep productId quantity).alternatives.length ≤ 3 ∧
    (∀ a ∈ (checkStockStep productId quantity).alternatives,
      a.category = p.category ∧ a.id ≠ p.id ∧ jsQty quantity ≤ a.stock) := by
  simp only [checkStockStep, hfind]
  by_cases hav : decide (jsQty quantity ≤ p.stock) = true
  · simp [hav]
  · simp only [Bool.not_eq_true] at hav
    refine ⟨fun _ => by simp [hav], ?_, ?_⟩
    · simp only [hav]
      simp [List.length_take_le 3 _]
    · intro a ha
      simp only [hav, Bool.if_false_right] at ha
      have ha2 := List.take_subset 3 _ ha
      have ha3 := (List.mem_filter.mp ha2).2
      simp only [Bool.and_eq_true, bne_iff_ne, beq_iff_eq, decide_eq_true_eq] at ha3
      exact ⟨ha3.1.2, ha3.1.1, ha3.2⟩

/-- C10 witness: product "4" with requested quantity 20 is unavailable;
its two in-category alternatives with enough stock are products "5" and
"7". -/
theorem checkStockStep_alternatives_correct_witness :
    ((checkStockStep "4" (some 20)).isAvailable = false ∧
      (checkStockStep "4" (some 20)).alternatives.length ≤ 3) ∧
    ((sampleProducts.get ⟨4, by decide⟩).category
        = (sampleProducts.get ⟨3, by decide⟩).category ∧
      (sampleProducts.get ⟨4, by decide⟩).id ≠ (sampleProducts.get ⟨3, by decide⟩).id ∧
      jsQty (some 20) ≤ (sampleProducts.get ⟨4, by decide⟩).stock) := by
  have h := checkStockStep_alternatives_correct "4" (some 20)
    (sampleProducts.get ⟨3, by decide⟩) (by decide)
  exact ⟨⟨h.1 (by decide), h.2.1⟩, h.2.2 (sampleProducts.get ⟨4, by decide⟩) (by decide)⟩

/-! ## C9 -/

/-- C9: the search-and-filter step returns at most 5 products, namely the
first 5 of the sorted filtered list, and `totalMatched` is the number of
products that survived filtering (so it bounds the returned length). -/
theorem searchAndFilter_top5_totalMatched (prefs : UserPreferences) :
    (searchAndFilter prefs).filteredProducts = (searchAndFilterList prefs).take 5 ∧
    (searchAndFilter prefs).filteredProducts.length ≤ 5 ∧
    (searchAndFilter prefs).totalMatched = (wfAfterKeyword prefs).length ∧
    (searchAndFilter prefs).filteredProducts.length ≤ (searchAndFilter prefs).totalMatched := by
  refine ⟨rfl, List.length_take_le 5 _, ?_, ?_⟩
  · simp [searchAndFilter, searchAndFilterList, length_sortByPriority]
  · simp only [searchAndFilter]
    exact List.length_take_le' 5 _

/-! ## C7 -/

/-- The 0/1 value of a boolean sub-score ("Iverson bracket"). -/
def boolScore (b : Bool) : ℚ := if b then 1 else 0

/-- C7: each scorer's score is its fixed linear combination of sub-scores
clamped to [0,1], with the no-op short-circuit (score 1) when the topic is
absent: 0.5/0.3/0.2 for price accuracy, 0.6/0.2/0.2 for stock-info
accuracy, and weights 0.15/0.3/0.3/0.1/0.15 with default sub-score 0.5 for
customer-service quality. -/
theorem scorer_scores_linear (rp : PriceAnalysis) (rs : StockAnalysis)
    (rc : ServiceAnalysis) :
    priceAccuracyScore rp =
      (if rp.hasPriceInfo then
        clamp01 (0.5 * boolScore rp.isAccurate + 0.3 * boolScore rp.isClear +
          0.2 * rp.confidence.getD 1)
      else 1) ∧
    stockInfoAccuracyScore rs =
      (if rs.mentionsStock then
        clamp01 (0.6 * boolScore rs.isAccurate + 0.2 * boolScore rs.providesAlternatives +
          0.2 * rs.confidence.getD 1)
      else 1) ∧
    customerServiceQualityScore rc =
      clamp01 (0.15 * rc.politeness.getD 0.5 + 0.3 * rc.helpfulness.getD 0.5 +
        0.3 * rc.relevance.getD 0.5 + 0.1 * rc.proactiveness.getD 0.5 +
        0.15 * rc.clarity.getD 0.5) := by
  refine ⟨?_, ?_, ?_⟩
  · obtain ⟨hp, ia, ic, conf⟩ := rp
    cases hp <;> cases ia <;> cases ic <;>
      simp [priceAccuracyScore, boolScore]
  · obtain ⟨ms, ia, pa, conf⟩ := rs
    cases ms <;> cases ia <;> cases pa <;>
      simp [stockInfoAccuracyScore, boolScore]
  · simp only [customerServiceQualityScore]
    ring_nf

/-! ## C8 -/

lemma catalogAfter_id (catalog : List Product) (call : ToolCall) :
    catalogAfter catalog call = catalog := by
  cases call <;> rfl

/-- C8: after any sequence of tool and workflow-step calls, the catalog
still holds the same eight records, with the same field values, in the
order of its literal definition (the search-and-filter step sorts the
spread copy `[...sampleProducts]`, never the catalog itself). -/
theorem sampleProducts_never_mutated (calls : List ToolCall) :
    catalogAfterCalls calls = sampleProducts ∧ sampleProducts.length = 8 := by
  constructor
  · have h : ∀ (cs : List ToolCall) (start : List Product),
        cs.foldl catalogAfter start = start := by
      intro cs
      induction cs with
      | nil => intro start; rfl
      | cons c rest ih =>
          intro start
          rw [List.foldl_cons, catalogAfter_id]
          exact ih start
    exact h calls sampleProducts
  · rfl

/-! ## C6 -/

/-- C6: when the greedy brace regex finds no JSON object in the model
response, or the parse of the match fails, the analyze step returns the
defaults: no price bounds, no preferred categories, the user message as
the only keyword, and priority factor "quality". -/
theorem analyzeUserRequest_fallback_defaults
    (parseJson : String → Option ParsedPrefs) (userMessage responseText : String)
    (hfail : extractJsonMatch responseText = none ∨
      ∃ s, extractJsonMatch responseText = some s ∧ parseJson s = none) :
    analyzeUserRequest parseJson userMessage responseText =
      { priceRange := { min := none, max := none },
        preferredCategories := [],
        keywords := [userMessage],
        priorityFactors := [Priority.quality] } := by
  rcases hfail with h | ⟨s, hs, hp⟩
  · simp [analyzeUserRequest, defaultPreferences, h]
  · simp [analyzeUserRequest, defaultPreferences, hs, hp]

/-- C6 witness: a response with no braces falls back to the defaults
(under a parser that accepts everything, so only the regex miss fires),
and a braced response under a failing parser falls back as well. -/
theorem analyzeUserRequest_fallback_defaults_witness :
    analyzeUserRequest (fun _ => none) "おすすめは" "JSONではない返事" =
      { priceRange := { min := none, max := none },
        preferredCategories := [],
        keywords := ["おすすめは"],
        priorityFactors := [Priority.quality] } :=
  analyzeUserRequest_fallback_defaults (fun _ => none) "おすすめは" "JSONではない返事"
    (Or.inl (by decide))

/-! ## C3 -/

/-- C3: every product returned by a search with a min and/or max price
bound respects the supplied bounds — for `searchProductsTool` and for the
search-and-filter workflow step. -/
theorem search_price_bounds_respected :
    (∀ (a : SearchArgs) (p : Product), p ∈ (searchProductsTool a).products →
      (∀ m, a.minPrice = some m → m ≤ p.price) ∧
      (∀ m, a.maxPrice = some m → p.price ≤ m)) ∧
    (∀ (prefs : UserPreferences) (p : Product),
      p ∈ (searchAndFilter prefs).filteredProducts →
      (∀ m, prefs.priceRange.min = some m → m ≤ p.price) ∧
      (∀ m, prefs.priceRange.max = some m → p.price ≤ m)) := by
  constructor
  · intro a p hp
    constructor
    · intro m hm
      have h4 : p ∈ toolAfterMinPrice a := mem_toolAfterMaxPrice hp
      unfold toolAfterMinPrice at h4
      rw [hm] at h4
      have := (List.mem_filter.mp h4).2
      simpa using this
    · intro m hm
      have h5 : p ∈ toolAfterMaxPrice a := hp
      unfold toolAfterMaxPrice at h5
      rw [hm] at h5
      have := (List.mem_filter.mp h5).2
      simpa using this
  · intro prefs p hp
    have h1 : p ∈ wfAfterMaxPrice prefs :=
      mem_wfAfterKeyword (mem_of_mem_filteredProducts hp)
    constructor
    · intro m hm
      have h2 : p ∈ wfAfterMinPrice prefs := mem_wfAfterMaxPrice h1
      unfold wfAfterMinPrice at h2
      rw [hm] at h2
      have := (List.mem_filter.mp h2).2
      simpa using this
    · intro m hm
      have h3 := h1
      unfold wfAfterMaxPrice at h3
      rw [hm] at h3
      have := (List.mem_filter.mp h3).2
      simpa using this

/-- C3 witness: with bounds 5000–10000 the tool returns product "4"
(price 8900) and the workflow step returns product "8" (price 5900); both
lie within the bounds. -/
theorem search_price_bounds_respected_witness :
    ((5000 : Int) ≤ (sampleProducts.get ⟨3, by decide⟩).price ∧
      (sampleProducts.get ⟨3, by decide⟩).price ≤ 10000) ∧
    ((5000 : Int) ≤ (sampleProducts.get ⟨7, by decide⟩).price ∧
      (sampleProducts.get ⟨7, by decide⟩).price ≤ 10000) := by
  have ht := search_price_bounds_respected.1 ⟨none, none, some 10000, some 5000⟩
    (sampleProducts.get ⟨3, by decide⟩) (by decide)
  have hw := search_price_bounds_respected.2
    ⟨⟨some 5000, some 10000⟩, [], [], [Priority.price]⟩
    (sampleProducts.get ⟨7, by decide⟩) (by decide)
  exact ⟨⟨ht.1 5000 rfl, ht.2 10000 rfl⟩, ⟨hw.1 5000 rfl, hw.2 10000 rfl⟩⟩

/-! ## C4 -/

/-- C4: every product returned by a search with a category argument has a
category matched by the request (case-insensitive substring of the
product's category) — for `searchProductsTool`, and for the
search-and-filter step with some preferred category. -/
theorem search_category_respected :
    (∀ (a : SearchArgs) (c : String) (p : Product), a.category = some c →
      p ∈ (searchProductsTool a).products → containsSub p.category c = true) ∧
    (∀ (prefs : UserPreferences) (p : Product),
      p ∈ (searchAndFilter prefs).filteredProducts →
      prefs.preferredCategories ≠ [] →
      ∃ c ∈ prefs.preferredCategories, containsSub p.category c = true) := by
  constructor
  · intro a c p hc hp
    have h1 : p ∈ toolAfterCategory a := mem_toolAfterMinPrice (mem_toolAfterMaxPrice hp)
    simp only [toolAfterCategory, hc] at h1
    by_cases hce : c = ""
    · subst hce
      exact containsSub_empty p.category
    · rw [if_neg hce] at h1
      exact (List.mem_filter.mp h1).2
  · intro prefs p hp hne
    have h1 : p ∈ wfAfterCategory prefs :=
      mem_wfAfterMinPrice (mem_wfAfterMaxPrice
        (mem_wfAfterKeyword (mem_of_mem_filteredProducts hp)))
    unfold wfAfterCategory at h1
    rw [if_pos (List.length_pos.mpr hne)] at h1
    have h2 : wfCategoryPred prefs.preferredCategories p = true :=
      (List.mem_filter.mp h1).2
    exact List.any_eq_true.mp h2

/-- C4 witness: the tool called with category "pc" returns product "4"
(category "PC周辺機器", a case-insensitive match), and the workflow step
with preferred category "オーディオ" returns product "1" (category
"オーディオ"). -/
theorem search_category_respected_witness :
    containsSub (sampleProducts.get ⟨3, by decide⟩).category "pc" = true ∧
    ∃ c ∈ ["オーディオ"],
      containsSub (sampleProducts.get ⟨0, by decide⟩).category c = true := by
  constructor
  · exact search_category_respected.1 ⟨none, some "pc", none, none⟩ "pc"
      (sampleProducts.get ⟨3, by decide⟩) rfl (by decide)
  · exact search_category_respected.2 ⟨⟨none, none⟩, ["オーディオ"], [], []⟩
      (sampleProducts.get ⟨0, by decide⟩) (by decide) (by decide)


/-! ## C2 -/

/-- The conjunction of the supplied category and price predicates of the
search-and-filter step (a missing argument contributes `true`). -/
def basePred (prefs : UserPreferences) (p : Product) : Bool :=
  (match prefs.priceRange.max with | some m => decide (p.price ≤ m) | none => true) &&
  ((match prefs.priceRange.min with | some m => decide (m ≤ p.price) | none => true) &&
   (prefs.preferredCategories.isEmpty || wfCategoryPred prefs.preferredCategories p))

/-- Modelled from the claim's words, NOT from the source: keep a product
iff it satisfies every supplied predicate (keyword, category, price
bounds), then sort by the first priority factor. -/
def searchAndFilterClaim (prefs : UserPreferences) : List Product :=
  sortByPriority (prefs.priorityFactors.headD Priority.quality)
    (sampleProducts.filter (fun p =>
      (prefs.keywords.isEmpty || wfKeywordPred prefs.keywords p) && basePred prefs p))

/-- The amended search-and-filter pipeline: category and price predicates
applied conjunctively; the keyword predicate applied only when keywords
are supplied and at least one category-and-price survivor matches a
keyword, and skipped otherwise. -/
def searchAndFilterAmended (prefs : UserPreferences) : List Product :=
  sortByPriority (prefs.priorityFactors.headD Priority.quality)
    (if prefs.keywords ≠ [] ∧
        (sampleProducts.filter (fun p => basePred prefs p)).filter
          (wfKeywordPred prefs.keywords) ≠ [] then
      (sampleProducts.filter (fun p => basePred prefs p)).filter
        (wfKeywordPred prefs.keywords)
    else sampleProducts.filter (fun p => basePred prefs p))

/-- A preference set whose single keyword matches no product. -/
def c2Input : UserPreferences :=
  { priceRange := { min := none, max := none },
    preferredCategories := [],
    keywords := ["zzz"],
    priorityFactors := [Priority.price] }

/-- C2 counterexample: with keyword "zzz" (matched by no product) the
claim's keep-iff-every-predicate pipeline returns the empty list, but the
step keeps all 8 products, because the source discards the keyword filter
whenever it would leave nothing. -/
theorem searchAndFilter_claim_counterexample :
    searchAndFilterClaim c2Input = [] ∧
    (searchAndFilter c2Input).totalMatched = 8 ∧
    searchAndFilterList c2Input ≠ searchAndFilterClaim c2Input := by decide

lemma wfAfterCategory_eq (prefs : UserPreferences) :
    wfAfterCategory prefs = sampleProducts.filter
      (fun p => prefs.preferredCategories.isEmpty ||
        wfCategoryPred prefs.preferredCategories p) := by
  cases hc : prefs.preferredCategories with
  | nil => simp [wfAfterCategory, hc]
  | cons c cs => simp [wfAfterCategory, hc]

lemma wfAfterMaxPrice_eq_base (prefs : UserPreferences) :
    wfAfterMaxPrice prefs = sampleProducts.filter (fun p => basePred prefs p) := by
  unfold wfAfterMaxPrice wfAfterMinPrice
  rw [wfAfterCategory_eq]
  cases hmax : prefs.priceRange.max with
  | none =>
      cases hmin : prefs.priceRange.min with
      | none => simp [basePred, hmin, hmax]
      | some m => simp [basePred, hmin, hmax, List.filter_filter]
  | some m =>
      cases hmin : prefs.priceRange.min with
      | none => simp [basePred, hmin, hmax, List.filter_filter]
      | some m' => simp [basePred, hmin, hmax, List.filter_filter]

/-- C2 amended: the step's product list is the catalog filtered by the
conjunction of the supplied category and price predicates, additionally
filtered by the keyword predicate exactly when keywords are supplied and
at least one survivor matches one, and then sorted by the first priority
factor. -/
theorem searchAndFilter_amended_eq (prefs : UserPreferences) :
    searchAndFilterList prefs = searchAndFilterAmended prefs := by
  unfold searchAndFilterList searchAndFilterAmended
  simp only [wfAfterKeyword]
  rw [wfAfterMaxPrice_eq_base]
  congr 1
  by_cases hk : prefs.keywords = []
  · rw [if_neg (by simp [hk]), if_neg (by simp [hk])]
  · by_cases hs :
      (sampleProducts.filter (fun p => basePred prefs p)).filter
        (wfKeywordPred prefs.keywords) = []
    · rw [if_pos (List.length_pos.mpr hk), if_neg (by simp [hs]),
        if_neg (fun hand => hand.2 hs)]
    · rw [if_pos (List.length_pos.mpr hk), if_pos (List.length_pos.mpr hs),
        if_pos ⟨hk, hs⟩]
